import Mathlib

/-!
Verification of the alert-test injector/verifier script
(`alert_injector.py`) against its specification.

Embedding conventions:
* HTTP interaction is modelled by an environment `env : Nat → PostResult`
  giving, for each successive POST the injector issues, either the response
  status code or a transport error (a raised exception).
* Wall-clock time is idealized: requests and responses are instantaneous,
  so iteration `i` of an injection loop begins at elapsed time `15 * i`
  seconds (the loop sleeps 15 s per iteration), and polling iteration `i` of
  `wait_for_alert` begins at elapsed time `5 * i` seconds.  The loop guard
  `time.time() < end_time` therefore runs iteration `i` exactly when
  `15 * i < duration_minutes * 60`, i.e. there are `(4 * duration).toNat`
  iterations; `wait_for_alert` polls while `5 * i < timeout`.
* Python ints are `Int`; the float arithmetic `latency_ms / 1000 * 100` is
  modelled over `ℚ`.
* Metric payloads are modelled structurally, as the list of exposition lines
  the Python f-strings produce, with sample values as rationals.
* JSON alert objects are modelled by the fields this script reads:
  `status.state` (absent `status` or `state` gives `none`), with `labels`
  and `annotations` as association lists (Python dicts, `.get` = lookup).
-/

/-- One line of the text metrics-exposition payload: either a
`# TYPE name kind` declaration or a `name{labels} value` sample. -/
inductive PayloadLine where
  | typeDecl (name kind : String)
  | sample (name : String) (labels : List (String × String)) (value : ℚ)
deriving DecidableEq

/-- An HTTP request issued by the script. -/
structure Request where
  method : String
  path : String
  body : List PayloadLine
deriving DecidableEq

/-- Outcome of one HTTP request: a response with a status code, or a
transport error (exception raised by `requests`). -/
inductive PostResult where
  | ok (status : Nat)
  | exn
deriving DecidableEq

def isExn : PostResult → Bool
  | .ok _ => false
  | .exn => true

/-- Whether a POST outcome is a response with status 200 or 202
(the script's notion of an accepted push). -/
def statusAccepted : PostResult → Bool
  | .ok s => s == 200 || s == 202
  | .exn => false

/-- `noExnFrom env i n` : none of the `n` consecutive requests starting at
index `i` hit a transport error. -/
def noExnFrom (env : Nat → PostResult) : Nat → Nat → Bool
  | _, 0 => true
  | i, n + 1 => !(isExn (env i)) && noExnFrom env (i + 1) n

/-- `allAccepted env i n` : all of the `n` consecutive requests starting at
index `i` received status 200 or 202. -/
def allAccepted (env : Nat → PostResult) : Nat → Nat → Bool
  | _, 0 => true
  | i, n + 1 => statusAccepted (env i) && allAccepted env (i + 1) n

/-- The per-service push-gateway resource path
`{pushgateway_url}/metrics/job/alert_test/instance/{service}`. -/
def pushPath (pushgateway_url service : String) : String :=
  pushgateway_url ++ "/metrics/job/alert_test/instance/" ++ service

/-- Number of iterations of a 15-second injection loop guarded by
`time.time() < start + duration_minutes * 60`: iteration `i` (at elapsed
time `15 * i`) runs iff `15 * i < 60 * duration`, so there are
`max 0 (4 * duration)` iterations. -/
def pushIterations (duration_minutes : Int) : Nat :=
  (4 * duration_minutes).toNat

/-- Payload pushed by `inject_high_error_rate` (fixed counters and
histogram, lines 36-48 of the source). -/
def error_rate_payload (service : String) : List PayloadLine :=
  [ .typeDecl "http_requests_total" "counter",
    .sample "http_requests_total" [("service", service), ("status", "200")] 100,
    .sample "http_requests_total" [("service", service), ("status", "500")] 150,
    .typeDecl "http_request_duration_seconds" "histogram",
    .sample "http_request_duration_seconds_bucket" [("service", service), ("le", "0.1")] 50,
    .sample "http_request_duration_seconds_bucket" [("service", service), ("le", "0.5")] 100,
    .sample "http_request_duration_seconds_bucket" [("service", service), ("le", "1.0")] 200,
    .sample "http_request_duration_seconds_bucket" [("service", service), ("le", "+Inf")] 250,
    .sample "http_request_duration_seconds_sum" [("service", service)] 125.5,
    .sample "http_request_duration_seconds_count" [("service", service)] 250 ]

/-- Payload pushed by `inject_high_latency` (lines 83-93): fixed histogram
buckets, `_sum` computed as `latency_ms / 1000 * 100`, `_count` fixed 100. -/
def latency_payload (service : String) (latency_ms : Int) : List PayloadLine :=
  [ .typeDecl "http_request_duration_seconds" "histogram",
    .sample "http_request_duration_seconds_bucket" [("service", service), ("le", "0.1")] 10,
    .sample "http_request_duration_seconds_bucket" [("service", service), ("le", "0.5")] 20,
    .sample "http_request_duration_seconds_bucket" [("service", service), ("le", "1.0")] 30,
    .sample "http_request_duration_seconds_bucket" [("service", service), ("le", "2.0")] 40,
    .sample "http_request_duration_seconds_bucket" [("service", service), ("le", "5.0")] 80,
    .sample "http_request_duration_seconds_bucket" [("service", service), ("le", "+Inf")] 100,
    .sample "http_request_duration_seconds_sum" [("service", service)] ((latency_ms : ℚ) / 1000 * 100),
    .sample "http_request_duration_seconds_count" [("service", service)] 100 ]

/-- Payload selected by `inject_resource_exhaustion`'s per-iteration
`if resource_type == ...` chain (lines 126-144); `none` is the
`else: return False` branch for an unknown resource type. -/
def resourcePayload (service resource_type : String) (usage_percent : Int) :
    Option (List PayloadLine) :=
  if resource_type = "memory" then
    some
      [ .typeDecl "container_memory_usage_bytes" "gauge",
        .sample "container_memory_usage_bytes" [("container", service)]
          ((usage_percent : ℚ) * 10 ^ 7),
        .typeDecl "container_spec_memory_limit_bytes" "gauge",
        .sample "container_spec_memory_limit_bytes" [("container", service)]
          (100 * 10 ^ 7) ]
  else if resource_type = "cpu" then
    some
      [ .typeDecl "container_cpu_usage_seconds_total" "counter",
        .sample "container_cpu_usage_seconds_total" [("container", service)]
          ((usage_percent : ℚ) * 1000),
        .typeDecl "container_spec_cpu_quota" "gauge",
        .sample "container_spec_cpu_quota" [("container", service)] 100000 ]
  else
    none

/-- Common shape of the injection loops: at iteration `i` POST `req`; a
transport error aborts with `False`; any response (of any status) lets the
loop continue; when the deadline passes (fuel runs out) return `True`.
Returns the list of requests issued paired with the boolean result. -/
def pushLoop (env : Nat → PostResult) (req : Request) :
    Nat → Nat → List Request × Bool
  | _, 0 => ([], true)
  | i, fuel + 1 =>
    match env i with
    | .exn => ([req], false)
    | .ok _ =>
      let r := pushLoop env req (i + 1) fuel
      (req :: r.1, r.2)

/-- The loop of `inject_high_error_rate` (lines 34-67), keeping the
`metrics_injected` counter (which only feeds progress printing): on a
response, the counter increments when the status is 200/202; either way the
loop continues.  A transport error returns `False` immediately. -/
def errorRateLoop (env : Nat → PostResult) (req : Request) :
    Nat → Nat → Nat → List Request × Bool
  | _, _, 0 => ([], true)
  | injected, i, fuel + 1 =>
    match env i with
    | .exn => ([req], false)
    | .ok status =>
      let injected2 := if status == 200 || status == 202 then injected + 1 else injected
      let r := errorRateLoop env req injected2 (i + 1) fuel
      (req :: r.1, r.2)

/-- The loop of `inject_resource_exhaustion` (lines 125-159): each
iteration first selects the payload by resource type, returning `False`
(before any request) on an unknown type, then POSTs and continues unless a
transport error occurs. -/
def resourceLoop (env : Nat → PostResult)
    (pushgateway_url service resource_type : String) (usage_percent : Int) :
    Nat → Nat → List Request × Bool
  | _, 0 => ([], true)
  | i, fuel + 1 =>
    match resourcePayload service resource_type usage_percent with
    | none => ([], false)
    | some p =>
      match env i with
      | .exn => ([⟨"POST", pushPath pushgateway_url service, p⟩], false)
      | .ok _ =>
        let r := resourceLoop env pushgateway_url service resource_type usage_percent
          (i + 1) fuel
        (⟨"POST", pushPath pushgateway_url service, p⟩ :: r.1, r.2)

/-- `AlertInjector.inject_high_error_rate` (lines 23-70). -/
def inject_high_error_rate (env : Nat → PostResult)
    (pushgateway_url service : String) (duration_minutes : Int) :
    List Request × Bool :=
  errorRateLoop env
    ⟨"POST", pushPath pushgateway_url service, error_rate_payload service⟩
    0 0 (pushIterations duration_minutes)

/-- `AlertInjector.inject_high_latency` (lines 72-113). -/
def inject_high_latency (env : Nat → PostResult)
    (pushgateway_url service : String) (latency_ms duration_minutes : Int) :
    List Request × Bool :=
  pushLoop env
    ⟨"POST", pushPath pushgateway_url service, latency_payload service latency_ms⟩
    0 (pushIterations duration_minutes)

/-- `AlertInjector.inject_resource_exhaustion` (lines 115-162). -/
def inject_resource_exhaustion (env : Nat → PostResult)
    (pushgateway_url service resource_type : String)
    (usage_percent duration_minutes : Int) : List Request × Bool :=
  resourceLoop env pushgateway_url service resource_type usage_percent
    0 (pushIterations duration_minutes)

/-- `AlertInjector.clear_injected_metrics` (lines 164-182): one DELETE to
the per-service path; `True` iff the response status is 200 or 202, `False`
on any other status or a transport error. -/
def clear_injected_metrics (resp : PostResult)
    (pushgateway_url service : String) : List Request × Bool :=
  ([⟨"DELETE", pushPath pushgateway_url service, []⟩],
    match resp with
    | .ok s => s == 200 || s == 202
    | .exn => false)

/-- An alert object as read by this script: `status.state` (absent
`status` or `state` field gives `none`), `labels` and `annotations` as
Python dicts, modelled as association lists with unique-key lookup
semantics given by first match. -/
structure Alert where
  statusState : Option String
  labels : List (String × String)
  annotations : List (String × String)
deriving DecidableEq

/-- Python `dict.get(key)`: the value at `key`, or `None`. -/
def lookupStr (m : List (String × String)) (k : String) : Option String :=
  (m.find? (fun p => p.1 == k)).map (fun p => p.2)

/-- Outcome of one GET to `{alertmanager_url}/api/v2/alerts`: a transport
error (exception during the request), or a response with a status code and
a body that parses to an alert array (`none` = `response.json()` raised). -/
inductive FetchResult where
  | err
  | resp (status : Nat) (body : Option (List Alert))
deriving DecidableEq

/-- `AlertVerifier.get_active_alerts` (lines 212-223): GET the alert list,
`raise_for_status` (raises for 400 ≤ status < 600), parse JSON, filter to
alerts whose `status.state == "active"`; any exception is caught and the
empty list returned. -/
def get_active_alerts (f : FetchResult) : List Alert :=
  match f with
  | .err => []
  | .resp status body =>
    if 400 ≤ status ∧ status < 600 then []
    else
      match body with
      | none => []
      | some alerts => alerts.filter (fun a => a.statusState == some "active")

/-- Whether some alert in the list has `labels.alertname == alert_name`
(the `for alert in alerts: if ...: return True` scan of lines 200-204). -/
def hasAlertNamed (alerts : List Alert) (alert_name : String) : Bool :=
  alerts.any (fun a => lookupStr a.labels "alertname" == some alert_name)

/-- Number of polls of the 5-second loop guarded by
`time.time() - start_time < timeout`: poll `i` (at elapsed `5 * i`) runs
iff `5 * i < timeout`. -/
def pollCount (timeout : Int) : Nat :=
  (timeout.toNat + 4) / 5

/-- The polling loop of `wait_for_alert` (lines 197-207): at poll `i`
fetch the active alerts; return `True` on a name match, else sleep 5 s and
retry until the timeout deadline passes. -/
def waitLoop (fetch : Nat → FetchResult) (alert_name : String) :
    Nat → Nat → Bool
  | _, 0 => false
  | i, fuel + 1 =>
    if hasAlertNamed (get_active_alerts (fetch i)) alert_name then true
    else waitLoop fetch alert_name (i + 1) fuel

/-- `AlertVerifier.wait_for_alert` (lines 191-210), with `fetch i` the
outcome of the GET performed by poll `i`. -/
def wait_for_alert (fetch : Nat → FetchResult) (alert_name : String)
    (timeout : Int) : Bool :=
  waitLoop fetch alert_name 0 (pollCount timeout)

/-- The first active alert whose `labels.alertname` equals `alert_name`
(the scan shared by `verify_alert_labels` and `verify_alert_annotations`;
both return from inside the loop at the first match). -/
def findAlert (alerts : List Alert) (alert_name : String) : Option Alert :=
  alerts.find? (fun a => lookupStr a.labels "alertname" == some alert_name)

/-- The inner loop of `verify_alert_labels` (lines 236-244): walk the
expected pairs in order; `False` at the first key whose looked-up value
differs from the expected string; `True` when all match. -/
def checkLabels (expected : List (String × String))
    (labels : List (String × String)) : Bool :=
  match expected with
  | [] => true
  | (k, v) :: rest =>
    if lookupStr labels k == some v then checkLabels rest labels else false

/-- `AlertVerifier.verify_alert_labels` (lines 225-247). -/
def verify_alert_labels (f : FetchResult) (alert_name : String)
    (expected_labels : List (String × String)) : Bool :=
  match findAlert (get_active_alerts f) alert_name with
  | some alert => checkLabels expected_labels alert.labels
  | none => false

/-- The inner loop of `verify_alert_annotations` (lines 260-266): `False`
at the first required key not present in the annotation map, `True` when
all are present (values never inspected). -/
def checkAnnotations (required : List String)
    (annotations : List (String × String)) : Bool :=
  match required with
  | [] => true
  | k :: rest =>
    if (lookupStr annotations k).isSome then checkAnnotations rest annotations
    else false

/-- `AlertVerifier.verify_alert_annotations` (lines 249-269). -/
def verify_alert_annotations (f : FetchResult) (alert_name : String)
    (required_annotations : List String) : Bool :=
  match findAlert (get_active_alerts f) alert_name with
  | some alert => checkAnnotations required_annotations alert.annotations
  | none => false

/-- The sub-commands `main` dispatches on (lines 334-343). -/
def knownCommand (c : String) : Bool :=
  c == "inject-error-rate" || c == "inject-latency" ||
  c == "inject-resource-exhaustion" || c == "clear" || c == "wait-for-alert"

/-- Outcome of running the selected operation inside `main`'s `try`:
a boolean result, a `KeyboardInterrupt`, or any other exception. -/
inductive RunOutcome where
  | ok (success : Bool)
  | interrupt
  | exn
deriving DecidableEq

/-- The return value of `main` (lines 324-355) after argument parsing:
`command` is `args.command` (an optional sub-command string) and `outcome`
the result of the dispatched operation.  `None` prints help and returns 1;
an unknown command returns 1; otherwise the operation's boolean maps to
0/1, `KeyboardInterrupt` to 130 and any other exception to 1. -/
def mainResult (command : Option String) (outcome : RunOutcome) : Int :=
  match command with
  | none => 1
  | some cmd =>
    if knownCommand cmd then
      match outcome with
      | .ok success => if success then 0 else 1
      | .interrupt => 130
      | .exn => 1
    else 1

/-- The value of the first sample line with the given metric name. -/
def sampleValue (p : List PayloadLine) (name : String) : Option ℚ :=
  p.findSome? (fun line =>
    match line with
    | .sample n _ v => if n == name then some v else none
    | .typeDecl _ _ => none)

/-- Specification of an injection run against environment `env`: it
succeeds exactly when none of the requests it issued hit a transport
error, and a transport error stops the loop at that request. -/
def resultSpec (env : Nat → PostResult) (r : List Request × Bool) : Prop :=
  r.2 = noExnFrom env 0 r.1.length ∧
  ∀ j, isExn (env j) = true → j < r.1.length → r.1.length = j + 1

/-- The `metrics_injected` counter only feeds progress printing: the
error-rate loop computes the same requests and result as the common loop. -/
theorem errorRateLoop_eq_pushLoop (env : Nat → PostResult) (req : Request) :
    ∀ fuel injected i, errorRateLoop env req injected i fuel = pushLoop env req i fuel := by
  intro fuel
  induction fuel with
  | zero => intro injected i; rfl
  | succ n ih =>
    intro injected i
    cases h : env i with
    | exn => simp [errorRateLoop, pushLoop, h]
    | ok s => simp [errorRateLoop, pushLoop, h, ih]

/-- With a valid resource type (payload selection succeeds), the
resource-exhaustion loop is the common loop on that payload. -/
theorem resourceLoop_eq_pushLoop (env : Nat → PostResult)
    (pushgateway_url service resource_type : String) (usage_percent : Int)
    (p : List PayloadLine)
    (hp : resourcePayload service resource_type usage_percent = some p) :
    ∀ fuel i, resourceLoop env pushgateway_url service resource_type usage_percent i fuel
      = pushLoop env ⟨"POST", pushPath pushgateway_url service, p⟩ i fuel := by
  intro fuel
  induction fuel with
  | zero => intro i; rfl
  | succ n ih =>
    intro i
    cases h : env i with
    | exn => simp [resourceLoop, pushLoop, hp, h]
    | ok s => simp [resourceLoop, pushLoop, hp, h, ih]

/-- The loop result is `true` exactly when none of the issued requests hit
a transport error. -/
theorem pushLoop_success (env : Nat → PostResult) (req : Request) :
    ∀ fuel i, (pushLoop env req i fuel).2
      = noExnFrom env i (pushLoop env req i fuel).1.length := by
  intro fuel
  induction fuel with
  | zero => intro i; rfl
  | succ n ih =>
    intro i
    cases h : env i with
    | exn => simp [pushLoop, h, noExnFrom, isExn]
    | ok s => simp [pushLoop, h, noExnFrom, isExn, ih]

/-- A transport error stops the loop: if request `i + j` errored and was
issued, it was the last request issued. -/
theorem pushLoop_abort (env : Nat → PostResult) (req : Request) :
    ∀ fuel i j, isExn (env (i + j)) = true →
      j < (pushLoop env req i fuel).1.length →
      (pushLoop env req i fuel).1.length = j + 1 := by
  intro fuel
  induction fuel with
  | zero =>
    intro i j hj hlt
    simp [pushLoop] at hlt
  | succ n ih =>
    intro i j hj hlt
    cases h : env i with
    | exn =>
      simp [pushLoop, h] at hlt ⊢
      omega
    | ok s =>
      simp only [pushLoop, h] at hlt ⊢
      cases j with
      | zero =>
        rw [Nat.add_zero, h] at hj
        simp [isExn] at hj
      | succ k =>
        have hj2 : isExn (env (i + 1 + k)) = true := by
          rw [show i + 1 + k = i + (k + 1) from by omega]
          exact hj
        simp only [List.length_cons] at hlt ⊢
        have hk : k < (pushLoop env req (i + 1) n).1.length := by omega
        have := ih (i + 1) k hj2 hk
        omega

/-- Every request the loop issues is the fixed request it was given. -/
theorem pushLoop_body (env : Nat → PostResult) (req : Request) :
    ∀ fuel i r, r ∈ (pushLoop env req i fuel).1 → r = req := by
  intro fuel
  induction fuel with
  | zero => intro i r hr; simp [pushLoop] at hr
  | succ n ih =>
    intro i r hr
    cases h : env i with
    | exn =>
      simp [pushLoop, h] at hr
      exact hr
    | ok s =>
      simp [pushLoop, h] at hr
      rcases hr with hr | hr
      · exact hr
      · exact ih (i + 1) r hr

theorem pushIterations_eq_zero (d : Int) (hd : d ≤ 0) : pushIterations d = 0 := by
  simp only [pushIterations]
  omega

theorem pushIterations_pos (d : Int) (hd : 0 < d) :
    ∃ n, pushIterations d = n + 1 := by
  have h : pushIterations d ≠ 0 := by
    simp only [pushIterations]
    omega
  exact Nat.exists_eq_succ_of_ne_zero h

/-- The expected-label scan succeeds exactly when every expected key looks
up to exactly the expected value. -/
theorem checkLabels_iff (expected labels : List (String × String)) :
    checkLabels expected labels = true ↔
      ∀ p ∈ expected, lookupStr labels p.1 = some p.2 := by
  induction expected with
  | nil => simp [checkLabels]
  | cons kv rest ih =>
    obtain ⟨k, v⟩ := kv
    by_cases h : lookupStr labels k = some v
    · simp [checkLabels, h, ih]
    · simp [checkLabels, h]

/-- The required-annotation scan succeeds exactly when every required key
is present in the annotation map. -/
theorem checkAnnotations_iff (required : List String)
    (annotations : List (String × String)) :
    checkAnnotations required annotations = true ↔
      ∀ k ∈ required, (lookupStr annotations k).isSome = true := by
  induction required with
  | nil => simp [checkAnnotations]
  | cons k rest ih =>
    by_cases h : (lookupStr annotations k).isSome = true
    · simp [checkAnnotations, h, ih]
    · simp [checkAnnotations, h]

/-- The polling loop returns `true` exactly when some poll within its
budget sees a matching active alert. -/
theorem waitLoop_iff (fetch : Nat → FetchResult) (alert_name : String) :
    ∀ fuel i, waitLoop fetch alert_name i fuel = true ↔
      ∃ j, j < fuel ∧
        hasAlertNamed (get_active_alerts (fetch (i + j))) alert_name = true := by
  intro fuel
  induction fuel with
  | zero => intro i; simp [waitLoop]
  | succ n ih =>
    intro i
    cases hb : hasAlertNamed (get_active_alerts (fetch i)) alert_name with
    | true =>
      simp only [waitLoop, hb, if_true]
      constructor
      · intro _
        exact ⟨0, Nat.succ_pos n, by simpa using hb⟩
      · intro _; trivial
    | false =>
      simp only [waitLoop, hb, Bool.false_eq_true, if_false]
      rw [ih (i + 1)]
      constructor
      · rintro ⟨j, hj, hP⟩
        refine ⟨j + 1, by omega, ?_⟩
        rw [show i + (j + 1) = i + 1 + j from by omega]
        exact hP
      · rintro ⟨j, hj, hP⟩
        cases j with
        | zero =>
          rw [Nat.add_zero] at hP
          rw [hP] at hb
          cases hb
        | succ k =>
          refine ⟨k, by omega, ?_⟩
          rw [show i + 1 + k = i + (k + 1) from by omega]
          exact hP

/-- Poll `i` of the 5-second loop runs exactly when `5 * i < timeout`. -/
theorem pollCount_iff (timeout : Int) (i : Nat) :
    i < pollCount timeout ↔ 5 * (i : Int) < timeout := by
  simp only [pollCount]
  omega

/-- C1 is false as stated: with duration 1 minute and every POST answered
with HTTP status 500 (no transport error), `inject_high_error_rate` issues
4 POSTs, none of which received status 200 or 202, and still returns
`True` (the non-2xx branch only logs; the loop continues and the function
ends with `return True`). -/
theorem inject_high_error_rate_true_despite_bad_status :
    (inject_high_error_rate (fun _ => PostResult.ok 500)
      "http://pushgateway:9091" "test-service" 1).2 = true
    ∧ (inject_high_error_rate (fun _ => PostResult.ok 500)
      "http://pushgateway:9091" "test-service" 1).1.length = 4
    ∧ allAccepted (fun _ => PostResult.ok 500) 0 4 = false := by
  refine ⟨rfl, rfl, rfl⟩

/-- C1 (amended): for every service and `duration_minutes > 0`, each of
`inject_high_error_rate`, `inject_high_latency` and
`inject_resource_exhaustion` (with a valid resource type) returns `True`
if and only if no transport error (exception) occurred on any POST it
issued — response status codes do not affect the result, a non-2xx status
being only logged — and a transport error aborts the loop at that request,
yielding `False`. -/
theorem inject_returns_true_iff_no_transport_error
    (env : Nat → PostResult) (pushgateway_url service resource_type : String)
    (latency_ms usage_percent duration_minutes : Int)
    (_hdur : 0 < duration_minutes)
    (hrt : resource_type = "memory" ∨ resource_type = "cpu") :
    resultSpec env
      (inject_high_error_rate env pushgateway_url service duration_minutes)
    ∧ resultSpec env
      (inject_high_latency env pushgateway_url service latency_ms duration_minutes)
    ∧ resultSpec env
      (inject_resource_exhaustion env pushgateway_url service resource_type
        usage_percent duration_minutes) := by
  have hpush : ∀ req : Request,
      resultSpec env (pushLoop env req 0 (pushIterations duration_minutes)) := by
    intro req
    constructor
    · exact pushLoop_success env req (pushIterations duration_minutes) 0
    · intro j hj hlt
      refine pushLoop_abort env req (pushIterations duration_minutes) 0 j ?_ hlt
      rw [Nat.zero_add]
      exact hj
  refine ⟨?_, ?_, ?_⟩
  · have h1 : inject_high_error_rate env pushgateway_url service duration_minutes
        = pushLoop env
            ⟨"POST", pushPath pushgateway_url service, error_rate_payload service⟩
            0 (pushIterations duration_minutes) := by
      rw [inject_high_error_rate, errorRateLoop_eq_pushLoop]
    rw [h1]
    exact hpush _
  · rw [inject_high_latency]
    exact hpush _
  · obtain ⟨p, hp⟩ : ∃ p, resourcePayload service resource_type usage_percent = some p := by
      rcases hrt with h | h <;> subst h <;> exact ⟨_, rfl⟩
    have h3 : inject_resource_exhaustion env pushgateway_url service resource_type
          usage_percent duration_minutes
        = pushLoop env ⟨"POST", pushPath pushgateway_url service, p⟩
            0 (pushIterations duration_minutes) := by
      rw [inject_resource_exhaustion,
        resourceLoop_eq_pushLoop env pushgateway_url service resource_type
          usage_percent p hp]
    rw [h3]
    exact hpush _

theorem inject_returns_true_iff_no_transport_error_witness :
    resultSpec (fun _ => PostResult.ok 200)
      (inject_high_error_rate (fun _ => PostResult.ok 200) "u" "s" 1)
    ∧ resultSpec (fun _ => PostResult.ok 200)
      (inject_high_latency (fun _ => PostResult.ok 200) "u" "s" 2000 1)
    ∧ resultSpec (fun _ => PostResult.ok 200)
      (inject_resource_exhaustion (fun _ => PostResult.ok 200) "u" "s" "memory" 95 1) :=
  inject_returns_true_iff_no_transport_error (fun _ => PostResult.ok 200)
    "u" "s" "memory" 2000 95 1 (by decide) (Or.inl rfl)

/-- C2: with a positive duration (the loop guard passes at least once;
the script's default is 5 minutes), `inject_resource_exhaustion` with a
resource type that is neither `"memory"` nor `"cpu"` sends zero HTTP
requests and returns `False`. -/
theorem inject_resource_exhaustion_unknown_type
    (env : Nat → PostResult) (pushgateway_url service resource_type : String)
    (usage_percent duration_minutes : Int)
    (hdur : 0 < duration_minutes)
    (h1 : resource_type ≠ "memory") (h2 : resource_type ≠ "cpu") :
    inject_resource_exhaustion env pushgateway_url service resource_type
      usage_percent duration_minutes = ([], false) := by
  obtain ⟨n, hn⟩ := pushIterations_pos duration_minutes hdur
  rw [inject_resource_exhaustion, hn]
  have hp : resourcePayload service resource_type usage_percent = none := by
    simp [resourcePayload, h1, h2]
  simp [resourceLoop, hp]

theorem inject_resource_exhaustion_unknown_type_witness :
    inject_resource_exhaustion (fun _ => PostResult.ok 200) "u" "s" "disk" 95 5
      = ([], false) :=
  inject_resource_exhaustion_unknown_type (fun _ => PostResult.ok 200)
    "u" "s" "disk" 95 5 (by decide) (by decide) (by decide)

/-- C3: `wait_for_alert` polls `get_active_alerts` on a 5-second cadence
(poll `i` runs exactly when `5 * i < timeout`, the wall-clock guard) and
returns `True` precisely when some poll within the timeout window sees an
active alert whose `labels.alertname` equals `alert_name`; once the
timeout elapses with no match it returns `False`. -/
theorem wait_for_alert_first_match_within_timeout
    (fetch : Nat → FetchResult) (alert_name : String) (timeout : Int) :
    (wait_for_alert fetch alert_name timeout = true ↔
      ∃ i, i < pollCount timeout ∧
        hasAlertNamed (get_active_alerts (fetch i)) alert_name = true)
    ∧ ∀ i : Nat, i < pollCount timeout ↔ 5 * (i : Int) < timeout := by
  constructor
  · simpa using waitLoop_iff fetch alert_name (pollCount timeout) 0
  · intro i
    exact pollCount_iff timeout i

/-- C4: on a successful fetch, `get_active_alerts` returns exactly the
entries of the fetched JSON array whose `status.state` equals `"active"`,
in their original order (an order-preserving sublist), and on a transport
error, an HTTP error status (`raise_for_status`), or a parse failure it
returns the empty list instead of raising. -/
theorem get_active_alerts_filters_active (status : Nat) (alerts : List Alert)
    (hok : status < 400) :
    (get_active_alerts (.resp status (some alerts))).Sublist alerts
    ∧ (∀ a, a ∈ get_active_alerts (.resp status (some alerts)) ↔
        a ∈ alerts ∧ a.statusState = some "active")
    ∧ get_active_alerts .err = []
    ∧ (∀ s, 400 ≤ s → s < 600 → ∀ body, get_active_alerts (.resp s body) = [])
    ∧ ∀ s, get_active_alerts (.resp s none) = [] := by
  have hres : get_active_alerts (.resp status (some alerts))
      = alerts.filter (fun a => a.statusState == some "active") := by
    simp only [get_active_alerts]
    rw [if_neg (by omega)]
  refine ⟨?_, ?_, rfl, ?_, ?_⟩
  · rw [hres]
    exact List.filter_sublist alerts
  · intro a
    rw [hres]
    simp [List.mem_filter]
  · intro s hs1 hs2 body
    simp only [get_active_alerts]
    rw [if_pos ⟨hs1, hs2⟩]
  · intro s
    simp only [get_active_alerts]
    split <;> rfl

theorem get_active_alerts_filters_active_witness :
    (get_active_alerts (FetchResult.resp 200 (some
        [Alert.mk (some "active") [("alertname", "A")] [],
         Alert.mk (some "resolved") [] []]))).Sublist
      [Alert.mk (some "active") [("alertname", "A")] [],
       Alert.mk (some "resolved") [] []]
    ∧ (Alert.mk (some "active") [("alertname", "A")] [] ∈
        get_active_alerts (FetchResult.resp 200 (some
          [Alert.mk (some "active") [("alertname", "A")] [],
           Alert.mk (some "resolved") [] []])) ↔
        Alert.mk (some "active") [("alertname", "A")] [] ∈
          [Alert.mk (some "active") [("alertname", "A")] [],
           Alert.mk (some "resolved") [] []]
        ∧ (Alert.mk (some "active") [("alertname", "A")] []).statusState
            = some "active") := by
  refine ⟨?_, ?_⟩
  · exact (get_active_alerts_filters_active 200 _ (by decide)).1
  · exact (get_active_alerts_filters_active 200 _ (by decide)).2.1 _

/-- C5: after argument parsing, `main` returns 1 when no sub-command was
given (help printed), 1 for an unknown sub-command, and for a known
sub-command maps the operation's outcome to: 0 on success, 1 on failure,
130 on `KeyboardInterrupt`, and 1 on any other exception caught at top
level. -/
theorem main_exit_codes (cmd : String) (outcome : RunOutcome) :
    mainResult none outcome = 1
    ∧ (knownCommand cmd = false → mainResult (some cmd) outcome = 1)
    ∧ (knownCommand cmd = true → mainResult (some cmd) (.ok true) = 0)
    ∧ (knownCommand cmd = true → mainResult (some cmd) (.ok false) = 1)
    ∧ (knownCommand cmd = true → mainResult (some cmd) .interrupt = 130)
    ∧ (knownCommand cmd = true → mainResult (some cmd) .exn = 1) := by
  refine ⟨rfl, ?_, ?_, ?_, ?_, ?_⟩ <;> intro h <;> simp [mainResult, h]

theorem main_exit_codes_witness :
    mainResult (some "clear") (RunOutcome.ok true) = 0
    ∧ mainResult (some "bogus") (RunOutcome.ok true) = 1
    ∧ mainResult (some "clear") RunOutcome.interrupt = 130
    ∧ mainResult (some "clear") RunOutcome.exn = 1 := by
  refine ⟨?_, ?_, ?_, ?_⟩
  · exact (main_exit_codes "clear" (RunOutcome.ok true)).2.2.1 (by decide)
  · exact (main_exit_codes "bogus" (RunOutcome.ok true)).2.1 (by decide)
  · exact (main_exit_codes "clear" RunOutcome.interrupt).2.2.2.2.1 (by decide)
  · exact (main_exit_codes "clear" RunOutcome.exn).2.2.2.2.2 (by decide)

/-- C6: the payload built by `inject_high_latency` carries a
`http_request_duration_seconds_sum` sample equal to
`latency_ms / 1000 * 100` (exactly `200` at the default
`latency_ms = 2000`) and a `http_request_duration_seconds_count` sample
fixed at `100`; every request the injector issues carries exactly this
payload. -/
theorem inject_high_latency_sum_and_count
    (env : Nat → PostResult) (pushgateway_url service : String)
    (latency_ms duration_minutes : Int) :
    sampleValue (latency_payload service latency_ms)
        "http_request_duration_seconds_sum"
      = some ((latency_ms : ℚ) / 1000 * 100)
    ∧ sampleValue (latency_payload service 2000)
        "http_request_duration_seconds_sum" = some 200
    ∧ sampleValue (latency_payload service latency_ms)
        "http_request_duration_seconds_count" = some 100
    ∧ ∀ r ∈ (inject_high_latency env pushgateway_url service latency_ms
        duration_minutes).1,
        r.body = latency_payload service latency_ms := by
  refine ⟨rfl, ?_, rfl, ?_⟩
  · have hred : sampleValue (latency_payload service 2000)
        "http_request_duration_seconds_sum"
        = some ((2000 : ℚ) / 1000 * 100) := rfl
    rw [hred]
    norm_num
  · intro r hr
    have hreq := pushLoop_body env
      ⟨"POST", pushPath pushgateway_url service, latency_payload service latency_ms⟩
      (pushIterations duration_minutes) 0 r hr
    rw [hreq]

theorem inject_high_latency_sum_and_count_witness :
    Request.body ⟨"POST", pushPath "u" "s", latency_payload "s" 2000⟩
      = latency_payload "s" 2000 :=
  (inject_high_latency_sum_and_count (fun _ => PostResult.ok 200) "u" "s" 2000 1).2.2.2
    ⟨"POST", pushPath "u" "s", latency_payload "s" 2000⟩ (by
      have h : inject_high_latency (fun _ => PostResult.ok 200) "u" "s" 2000 1
          = (List.replicate 4
              ⟨"POST", pushPath "u" "s", latency_payload "s" 2000⟩, true) := by
        rfl
      rw [h]
      simp)

/-- C7: `verify_alert_labels` returns `False` when no active alert has
`labels.alertname` equal to `alert_name`; for the first matching active
alert, it returns `True` exactly when every expected key looks up (string
equality, missing key gives `None`) to exactly its expected value, and
`False` as soon as some expected pair mismatches. -/
theorem verify_alert_labels_matches (f : FetchResult) (alert_name : String)
    (expected_labels : List (String × String)) :
    (findAlert (get_active_alerts f) alert_name = none →
      verify_alert_labels f alert_name expected_labels = false)
    ∧ ∀ alert, findAlert (get_active_alerts f) alert_name = some alert →
        (verify_alert_labels f alert_name expected_labels = true ↔
          ∀ p ∈ expected_labels, lookupStr alert.labels p.1 = some p.2) := by
  constructor
  · intro h
    simp [verify_alert_labels, h]
  · intro alert h
    simp [verify_alert_labels, h, checkLabels_iff]

theorem verify_alert_labels_matches_witness :
    verify_alert_labels
      (FetchResult.resp 200 (some
        [Alert.mk (some "active") [("alertname", "A"), ("service", "s1")] []]))
      "A" [("service", "s1")] = true
    ∧ verify_alert_labels FetchResult.err "A" [("service", "s1")] = false := by
  constructor
  · exact ((verify_alert_labels_matches
      (FetchResult.resp 200 (some
        [Alert.mk (some "active") [("alertname", "A"), ("service", "s1")] []]))
      "A" [("service", "s1")]).2
      (Alert.mk (some "active") [("alertname", "A"), ("service", "s1")] [])
      (by decide)).mpr (by decide)
  · exact (verify_alert_labels_matches FetchResult.err "A" [("service", "s1")]).1
      (by decide)

/-- C8: `verify_alert_annotations` returns `False` when no active alert
matches `alert_name`; for the first matching active alert it returns
`True` exactly when every required annotation key is present in the
alert's annotation map, with the annotation values never inspected. -/
theorem verify_alert_annotations_matches (f : FetchResult)
    (alert_name : String) (required_annotations : List String) :
    (findAlert (get_active_alerts f) alert_name = none →
      verify_alert_annotations f alert_name required_annotations = false)
    ∧ ∀ alert, findAlert (get_active_alerts f) alert_name = some alert →
        (verify_alert_annotations f alert_name required_annotations = true ↔
          ∀ k ∈ required_annotations,
            (lookupStr alert.annotations k).isSome = true) := by
  constructor
  · intro h
    simp [verify_alert_annotations, h]
  · intro alert h
    simp [verify_alert_annotations, h, checkAnnotations_iff]

theorem verify_alert_annotations_matches_witness :
    verify_alert_annotations
      (FetchResult.resp 200 (some
        [Alert.mk (some "active") [("alertname", "A")] [("summary", "x")]]))
      "A" ["summary"] = true
    ∧ verify_alert_annotations FetchResult.err "A" ["summary"] = false := by
  constructor
  · exact ((verify_alert_annotations_matches
      (FetchResult.resp 200 (some
        [Alert.mk (some "active") [("alertname", "A")] [("summary", "x")]]))
      "A" ["summary"]).2
      (Alert.mk (some "active") [("alertname", "A")] [("summary", "x")])
      (by decide)).mpr (by decide)
  · exact (verify_alert_annotations_matches FetchResult.err "A" ["summary"]).1
      (by decide)

/-- C9: `clear_injected_metrics` issues exactly one HTTP DELETE, to
`{pushgateway_url}/metrics/job/alert_test/instance/{service}`, and
returns `True` exactly when the response has status 200 or 202 — any
other status, and a transport error, give `False`. -/
theorem clear_injected_metrics_one_delete (resp : PostResult)
    (pushgateway_url service : String) :
    (clear_injected_metrics resp pushgateway_url service).1
      = [⟨"DELETE", pushPath pushgateway_url service, []⟩]
    ∧ ((clear_injected_metrics resp pushgateway_url service).2 = true ↔
        ∃ s, resp = PostResult.ok s ∧ (s = 200 ∨ s = 202)) := by
  refine ⟨rfl, ?_⟩
  cases resp with
  | exn => simp [clear_injected_metrics]
  | ok s => simp [clear_injected_metrics]

/-- C10: for every `duration_minutes ≤ 0` the deadline has already passed
at the first guard check, so each injector sends zero HTTP requests and
returns `True` — `inject_resource_exhaustion` even with a resource type
outside `{memory, cpu}`, since the type check sits inside the never-run
loop body. -/
theorem inject_noop_nonpositive_duration
    (env : Nat → PostResult) (pushgateway_url service resource_type : String)
    (latency_ms usage_percent duration_minutes : Int)
    (hdur : duration_minutes ≤ 0) :
    inject_high_error_rate env pushgateway_url service duration_minutes
      = ([], true)
    ∧ inject_high_latency env pushgateway_url service latency_ms
        duration_minutes = ([], true)
    ∧ inject_resource_exhaustion env pushgateway_url service resource_type
        usage_percent duration_minutes = ([], true) := by
  have h0 := pushIterations_eq_zero duration_minutes hdur
  refine ⟨?_, ?_, ?_⟩ <;>
    simp [inject_high_error_rate, inject_high_latency,
      inject_resource_exhaustion, h0, errorRateLoop, pushLoop, resourceLoop]

theorem inject_noop_nonpositive_duration_witness :
    inject_high_error_rate (fun _ => PostResult.exn) "u" "s" 0 = ([], true)
    ∧ inject_high_latency (fun _ => PostResult.exn) "u" "s" 2000 0 = ([], true)
    ∧ inject_resource_exhaustion (fun _ => PostResult.exn) "u" "s" "disk" 95 0
        = ([], true) :=
  inject_noop_nonpositive_duration (fun _ => PostResult.exn) "u" "s" "disk"
    2000 95 0 (by decide)
